import Mathlib

/-!
# Verification of the pft-chatbot-mcp messaging core

Shallow embedding, in Lean 4, of the messaging core of the
`postfiatorg/pft-chatbot-mcp` repository, together with theorems settling
the specification claims about it.

The embedding mirrors the TypeScript sources:

* `Crypto` — `src/crypto/encrypt.ts` (`encryptPayloadForRecipients`) and
  `src/crypto/decrypt.ts` (`decryptPayload`, `hasRecipientShard`).
  The libsodium primitives (XChaCha20-Poly1305 AEAD, X25519 `crypto_box`)
  and SHA-256 are external libraries, not code of this repository; they are
  modelled algebraically (Dolev-Yao style): ciphertexts are free terms
  that decrypt exactly under the matching key material, Diffie-Hellman is
  modular exponentiation (so the shared-secret symmetry that `crypto_box`
  relies on is a proved lemma, not an assumption), and SHA-256 is an
  injective tagging function.  Randomness drawn inside
  `encryptPayloadForRecipients` (file key, nonce, per-recipient ephemeral
  keypairs and wrap nonces) is threaded in explicitly as a `SealEntropy`
  argument, one draw per loop iteration, exactly where the source draws it.

* `ChainPointer` — `src/chain/pointer.ts` (memo constants and
  `identifyMemoType`); `PointerV2` — the revised copy of the same module
  shipped in the repository (case-normalising `identifyMemoType`,
  enum-resolving `buildPfPointerMemo`, `toObject`-based `decodePfPointer`).

* `Scanner` — `src/chain/scanner.ts` (`scanMessages` and its amount
  parsing) and the `scan_messages` tool (`executeScanMessages`).

* `Submitter` — the `submitAndPoll` submit/poll lifecycle (duplicated
  inline in `publishMessageKey` in `src/chain/submitter.ts`).

JavaScript `undefined`/missing fields are modelled with `Option`; the
JavaScript truthiness tests of the source (`if (x)`, `x || d`, `x ?? d`)
are translated field by field, treating `""` and `0` as falsy where the
source applies truthiness to strings and numbers.
-/

namespace Crypto

/-- SHA-256 hex digest of an X25519 public key (a 32-byte string, modelled
as a `Nat`).  Modelled as an injective tag: the development only relies on
collision-freeness of SHA-256, which is the standard modelling assumption. -/
structure Sha256 where
  digestOf : Nat
deriving DecidableEq, Repr

/-- `createHash("sha256").update(publicKey).digest("hex")` on a key. -/
def sha256Key (publicKey : Nat) : Sha256 := ⟨publicKey⟩

/-- SHA-256 hex digest of a plaintext (`content_hash` in the envelope). -/
structure Sha256Text where
  textOf : String
deriving DecidableEq, Repr

/-- `createHash("sha256").update(textBytes).digest("hex")`. -/
def sha256Text (plaintext : String) : Sha256Text := ⟨plaintext⟩

/-- Modulus of the algebraic Diffie-Hellman model. -/
def dhMod : Nat := 101

/-- Generator of the algebraic Diffie-Hellman model. -/
def dhGen : Nat := 2

/-- X25519 public key of a secret scalar (`crypto_box_keypair` /
`crypto_scalarmult_base`): `g ^ sk mod m` in the algebraic model. -/
def pubKey (sk : Nat) : Nat := dhGen ^ sk % dhMod

/-- X25519 key agreement (`crypto_scalarmult`): `pk ^ sk mod m`. -/
def dh (sk pk : Nat) : Nat := pk ^ sk % dhMod

/-- Ciphertext produced by `crypto_box_easy` (wrapping of the file key):
a free term recording the shared secret, nonce and message it was built
from.  `crypto_box_open_easy` succeeds exactly when it reconstructs the
same shared secret and nonce. -/
structure BoxCiphertext where
  secret : Nat
  boxNonce : Nat
  boxMsg : Nat
deriving DecidableEq, Repr

/-- `sodium.crypto_box_easy(msg, nonce, pk, sk)`. -/
def crypto_box_easy (msg nonce pk sk : Nat) : BoxCiphertext :=
  ⟨dh sk pk, nonce, msg⟩

/-- `sodium.crypto_box_open_easy(c, nonce, pk, sk)`; `none` models the
authentication-failure throw. -/
def crypto_box_open_easy (c : BoxCiphertext) (nonce pk sk : Nat) : Option Nat :=
  if c.secret = dh sk pk ∧ c.boxNonce = nonce then some c.boxMsg else none

/-- Ciphertext produced by `crypto_aead_xchacha20poly1305_ietf_encrypt`:
a free term recording key, nonce and plaintext. -/
structure AeadCiphertext where
  aeadKey : Nat
  aeadNonce : Nat
  aeadMsg : String
deriving DecidableEq, Repr

/-- `sodium.crypto_aead_xchacha20poly1305_ietf_encrypt(m, null, null, n, k)`. -/
def aead_encrypt (msg : String) (nonce key : Nat) : AeadCiphertext :=
  ⟨key, nonce, msg⟩

/-- `sodium.crypto_aead_xchacha20poly1305_ietf_decrypt(null, c, null, n, k)`;
`none` models the authentication-failure throw. -/
def aead_decrypt (c : AeadCiphertext) (nonce key : Nat) : Option String :=
  if c.aeadKey = key ∧ c.aeadNonce = nonce then some c.aeadMsg else none

/-- Base64 transport encoding (`toBase64`/`fromBase64` in the sources).
Base64 is a bijection on the encoded values, so it is modelled as a
transparent wrapper: `toBase64` wraps, `fromBase64` unwraps. -/
structure B64 (α : Type) where
  b64val : α
deriving DecidableEq, Repr

/-- `Buffer.from(bytes).toString("base64")`. -/
def toBase64 {α : Type} (x : α) : B64 α := ⟨x⟩

/-- `new Uint8Array(Buffer.from(str, "base64"))`. -/
def fromBase64 {α : Type} (b : B64 α) : α := b.b64val

/-- One entry of the `recipients` array of the encrypted envelope
(`src/crypto/encrypt.ts`). -/
structure RecipientShard where
  recipient_id : Sha256
  ephemeral_pubkey : B64 Nat
  wrap_nonce : B64 Nat
  encrypted_file_key : B64 BoxCiphertext
deriving DecidableEq, Repr

/-- The JSON blob produced by `encryptPayloadForRecipients` and consumed by
`decryptPayload` / `hasRecipientShard`.  `decryptPayload` receives it as an
untyped JSON value, so each field the source truthiness-tests is an
`Option` (with `none` for an absent field). -/
structure EncryptedBlob where
  version : Nat
  enc : String
  nonce : Option (B64 Nat)
  ciphertext : Option (B64 AeadCiphertext)
  content_hash : Option Sha256Text
  recipients : Option (List RecipientShard)
deriving DecidableEq, Repr

/-- The randomness drawn by one call of `encryptPayloadForRecipients`:
`fileKey` and `nonce` are drawn once; the i-th loop iteration draws the
ephemeral secret key `ephSk i` (via `crypto_box_keypair`) and the wrap
nonce `wrapNonce i` (via `randombytes_buf`). -/
structure SealEntropy where
  fileKey : Nat
  nonce : Nat
  ephSk : Nat → Nat
  wrapNonce : Nat → Nat

/-- Body of the `for (const recipientPubkey of recipientPublicKeys)` loop
of `encryptPayloadForRecipients`: wrap `fileKey` for the recipient and
build the shard pushed onto `recipients`.  `i` is the loop iteration
(which entropy draw is used). -/
def mkShard (ent : SealEntropy) (fileKey : Nat) (i : Nat) (recipientPubkey : Nat) :
    RecipientShard :=
  let ephemeralSk := ent.ephSk i
  let wrapNonce := ent.wrapNonce i
  { recipient_id := sha256Key recipientPubkey
    ephemeral_pubkey := toBase64 (pubKey ephemeralSk)
    wrap_nonce := toBase64 wrapNonce
    encrypted_file_key :=
      toBase64 (crypto_box_easy fileKey wrapNonce recipientPubkey ephemeralSk) }

/-- The recipients loop of `encryptPayloadForRecipients`, one shard per
list entry, in order; `i` counts the iterations already performed. -/
def wrapShards (ent : SealEntropy) (fileKey : Nat) :
    Nat → List Nat → List RecipientShard
  | _, [] => []
  | i, pk :: rest => mkShard ent fileKey i pk :: wrapShards ent fileKey (i + 1) rest

/-- `encryptPayloadForRecipients(plaintext, recipientPublicKeys)` from
`src/crypto/encrypt.ts`, with the randomness it draws passed in as `ent`. -/
def encryptPayloadForRecipients (plaintext : String) (recipientPublicKeys : List Nat)
    (ent : SealEntropy) : EncryptedBlob :=
  let fileKey := ent.fileKey
  let nonce := ent.nonce
  let ciphertext := aead_encrypt plaintext nonce fileKey
  let contentHash := sha256Text plaintext
  let recipients := wrapShards ent fileKey 0 recipientPublicKeys
  { version := 1
    enc := "ENC_X25519_XCHACHA20P1305"
    nonce := some (toBase64 nonce)
    ciphertext := some (toBase64 ciphertext)
    content_hash := some contentHash
    recipients := some recipients }

/-- The errors `decryptPayload` throws. -/
inductive DecryptError where
  /-- "Invalid encrypted payload: missing required fields" -/
  | invalidPayload
  /-- "No recipient shard found for this key. The message was not
  encrypted for this bot." -/
  | noRecipientShard
  /-- A throw out of `crypto_box_open_easy` or the AEAD decryption
  (tampered or mismatched key material). -/
  | decryptionFailed
deriving DecidableEq, Repr

/-- `decryptPayload(blob, privateKey, publicKey)` from
`src/crypto/decrypt.ts`; `blob = none` models a null/undefined blob. -/
def decryptPayload (blob : Option EncryptedBlob) (privateKey publicKey : Nat) :
    Except DecryptError String :=
  match blob with
  | none => .error .invalidPayload
  | some b =>
    match b.recipients, b.ciphertext, b.nonce with
    | some recipients, some ciphertext, some nonce =>
      let ourId := sha256Key publicKey
      match recipients.find? (fun r => r.recipient_id = ourId) with
      | none => .error .noRecipientShard
      | some shard =>
        let encryptedFileKey := fromBase64 shard.encrypted_file_key
        let wrapNonce := fromBase64 shard.wrap_nonce
        let ephemeralPubkey := fromBase64 shard.ephemeral_pubkey
        match crypto_box_open_easy encryptedFileKey wrapNonce ephemeralPubkey privateKey with
        | none => .error .decryptionFailed
        | some fileKey =>
          match aead_decrypt (fromBase64 ciphertext) (fromBase64 nonce) fileKey with
          | none => .error .decryptionFailed
          | some plaintext => .ok plaintext
    | _, _, _ => .error .invalidPayload

/-- `hasRecipientShard(blob, publicKey)` from `src/crypto/decrypt.ts`:
`if (!blob?.recipients) return false;` then a `some` over the shards. -/
def hasRecipientShard (blob : Option EncryptedBlob) (publicKey : Nat) : Bool :=
  match blob with
  | none => false
  | some b =>
    match b.recipients with
    | none => false
    | some recipients =>
      recipients.any (fun r => r.recipient_id = sha256Key publicKey)

end Crypto

namespace Crypto

/-- `crypto_box` shared-secret symmetry in the algebraic model:
key agreement between the secret key of one side and the public key of
the other side gives the same secret on both sides. -/
theorem dh_comm (a b : Nat) : dh a (pubKey b) = dh b (pubKey a) := by
  unfold dh pubKey
  conv_lhs => rw [← Nat.pow_mod, ← pow_mul]
  conv_rhs => rw [← Nat.pow_mod, ← pow_mul]
  rw [Nat.mul_comm]

theorem sha256Key_inj {a b : Nat} (h : sha256Key a = sha256Key b) : a = b := by
  simpa [sha256Key] using h

/-- The shard ids produced by the recipients loop are exactly the SHA-256
digests of the supplied keys, in order. -/
theorem wrapShards_map_recipient_id (ent : SealEntropy) (fk : Nat) :
    ∀ (R : List Nat) (i : Nat),
      (wrapShards ent fk i R).map (fun r => r.recipient_id) = R.map sha256Key := by
  intro R
  induction R with
  | nil => intro i; rfl
  | cons pk rest ih =>
    intro i
    simp [wrapShards, mkShard, ih (i + 1)]

/-- If the queried key is one of the sealed-for keys, the shard lookup of
`decryptPayload` finds the shard built for it (at some loop iteration). -/
theorem find?_wrapShards_mem (ent : SealEntropy) (fk k : Nat) :
    ∀ (R : List Nat) (i : Nat), pubKey k ∈ R →
      ∃ j, (wrapShards ent fk i R).find?
            (fun r => r.recipient_id = sha256Key (pubKey k)) =
          some (mkShard ent fk j (pubKey k)) := by
  intro R
  induction R with
  | nil => intro i h; cases h
  | cons pk rest ih =>
    intro i hmem
    by_cases hpk : pk = pubKey k
    · subst hpk
      exact ⟨i, by simp [wrapShards, List.find?_cons_of_pos, mkShard]⟩
    · have hmem' : pubKey k ∈ rest := by
        cases hmem with
        | head => exact absurd rfl hpk
        | tail _ h => exact h
      obtain ⟨j, hj⟩ := ih (i + 1) hmem'
      refine ⟨j, ?_⟩
      rw [wrapShards, List.find?_cons_of_neg, hj]
      simp [mkShard, sha256Key]
      exact hpk

/-- If the queried key is not among the sealed-for keys, no shard matches. -/
theorem find?_wrapShards_not_mem (ent : SealEntropy) (fk K : Nat) :
    ∀ (R : List Nat) (i : Nat), K ∉ R →
      (wrapShards ent fk i R).find?
          (fun r => r.recipient_id = sha256Key K) = none := by
  intro R
  induction R with
  | nil => intro i _; rfl
  | cons pk rest ih =>
    intro i hnot
    rw [wrapShards, List.find?_cons_of_neg, ih (i + 1) (fun h => hnot (List.mem_cons_of_mem _ h))]
    simp [mkShard, sha256Key]
    intro h
    exact hnot (h ▸ List.mem_cons_self _ _)

end Crypto

/-- C1: opening `encryptPayloadForRecipients(P, R)` with a keypair
`(k, pubKey k)` whose public key is in `R` returns `P`; opening with a
public key not in `R` fails with the no-recipient-shard error, not with a
decryption failure. -/
theorem C1_seal_open (P : String) (R : List Nat) (ent : Crypto.SealEntropy) (k K : Nat) :
    (Crypto.pubKey k ∈ R →
      Crypto.decryptPayload (some (Crypto.encryptPayloadForRecipients P R ent))
        k (Crypto.pubKey k) = .ok P) ∧
    (K ∉ R →
      Crypto.decryptPayload (some (Crypto.encryptPayloadForRecipients P R ent))
        k K = .error .noRecipientShard) := by
  constructor
  · intro hmem
    obtain ⟨j, hj⟩ := Crypto.find?_wrapShards_mem ent ent.fileKey k R 0 hmem
    simp only [Crypto.decryptPayload, Crypto.encryptPayloadForRecipients, hj]
    simp [Crypto.mkShard, Crypto.crypto_box_open_easy, Crypto.crypto_box_easy,
      Crypto.fromBase64, Crypto.toBase64, Crypto.dh_comm (ent.ephSk j) k,
      Crypto.aead_decrypt, Crypto.aead_encrypt]
  · intro hnot
    have hfind := Crypto.find?_wrapShards_not_mem ent ent.fileKey K R 0 hnot
    simp only [Crypto.decryptPayload, Crypto.encryptPayloadForRecipients, hfind]

/-- C1 witness: sealing "hello" for `[pubKey 5, pubKey 7]`, the keypair of
secret 5 recovers "hello" and the public key of secret 9 gets the
no-recipient-shard error. -/
theorem C1_seal_open_witness :
    (Crypto.pubKey 5 ∈ [Crypto.pubKey 5, Crypto.pubKey 7] ∧
      Crypto.decryptPayload
        (some (Crypto.encryptPayloadForRecipients "hello"
          [Crypto.pubKey 5, Crypto.pubKey 7] ⟨1, 2, fun i => i + 3, fun i => i + 10⟩))
        5 (Crypto.pubKey 5) = .ok "hello") ∧
    (Crypto.pubKey 9 ∉ [Crypto.pubKey 5, Crypto.pubKey 7] ∧
      Crypto.decryptPayload
        (some (Crypto.encryptPayloadForRecipients "hello"
          [Crypto.pubKey 5, Crypto.pubKey 7] ⟨1, 2, fun i => i + 3, fun i => i + 10⟩))
        9 (Crypto.pubKey 9) = .error .noRecipientShard) :=
  ⟨⟨by decide,
    (C1_seal_open "hello" [Crypto.pubKey 5, Crypto.pubKey 7]
      ⟨1, 2, fun i => i + 3, fun i => i + 10⟩ 5 (Crypto.pubKey 9)).1 (by decide)⟩,
   ⟨by decide,
    (C1_seal_open "hello" [Crypto.pubKey 5, Crypto.pubKey 7]
      ⟨1, 2, fun i => i + 3, fun i => i + 10⟩ 9 (Crypto.pubKey 9)).2 (by decide)⟩⟩

/-- C9 counterexample: sealing for the list `[5, 5]` (the same recipient
public key supplied twice) produces two shards whose `recipient_id` is the
digest of key 5, refuting "exactly one shard per distinct recipient public
key" / "no duplicate shards even when the same public key appears more
than once in the supplied list". -/
theorem C9_counterexample :
    (((Crypto.encryptPayloadForRecipients "m" [5, 5]
          ⟨1, 2, fun i => i + 3, fun i => i + 10⟩).recipients.getD []).filter
        (fun r => r.recipient_id = Crypto.sha256Key 5)).length = 2 := by
  decide

/-- C9 amended: the recipients list contains exactly one shard per entry
of the supplied key list, in order (so duplicate keys in the list yield
duplicate shards), and the `recipient_id` of each shard is the SHA-256
digest of the public key of that entry, derived by the sealer. -/
theorem C9_shard_per_entry (P : String) (R : List Nat) (ent : Crypto.SealEntropy) :
    ∃ shards, (Crypto.encryptPayloadForRecipients P R ent).recipients = some shards ∧
      shards.map (fun r => r.recipient_id) = R.map Crypto.sha256Key := by
  refine ⟨Crypto.wrapShards ent ent.fileKey 0 R, rfl, ?_⟩
  exact Crypto.wrapShards_map_recipient_id ent ent.fileKey R 0

/-- C10: `hasRecipientShard` is total; it returns `false` on a
null/undefined blob and on a blob without a recipients list, returns
`true` exactly when the `recipient_id` of some shard equals the digest of the
supplied public key, and on an envelope produced by
`encryptPayloadForRecipients(P, R)` it returns `true` exactly when the
digest of the supplied key equals the digest of some key in `R`. -/
theorem C10_hasRecipientShard (K : Nat) :
    Crypto.hasRecipientShard none K = false ∧
    (∀ b : Crypto.EncryptedBlob, b.recipients = none →
      Crypto.hasRecipientShard (some b) K = false) ∧
    (∀ (b : Crypto.EncryptedBlob) (rs : List Crypto.RecipientShard),
      b.recipients = some rs →
      (Crypto.hasRecipientShard (some b) K = true ↔
        ∃ r ∈ rs, r.recipient_id = Crypto.sha256Key K)) ∧
    (∀ (P : String) (R : List Nat) (ent : Crypto.SealEntropy),
      Crypto.hasRecipientShard
          (some (Crypto.encryptPayloadForRecipients P R ent)) K = true ↔
        ∃ pk ∈ R, Crypto.sha256Key pk = Crypto.sha256Key K) := by
  refine ⟨rfl, ?_, ?_, ?_⟩
  · intro b hb
    simp [Crypto.hasRecipientShard, hb]
  · intro b rs hb
    simp [Crypto.hasRecipientShard, hb]
  · intro P R ent
    have hmap := Crypto.wrapShards_map_recipient_id ent ent.fileKey R 0
    constructor
    · intro h
      have hex : ∃ r ∈ Crypto.wrapShards ent ent.fileKey 0 R,
          r.recipient_id = Crypto.sha256Key K := by
        simpa [Crypto.hasRecipientShard, Crypto.encryptPayloadForRecipients] using h
      obtain ⟨r, hr, hid⟩ := hex
      have : Crypto.sha256Key K ∈ R.map Crypto.sha256Key := by
        rw [← hmap]
        exact hid ▸ List.mem_map_of_mem _ hr
      obtain ⟨pk, hpk, hpkeq⟩ := List.mem_map.mp this
      exact ⟨pk, hpk, hpkeq⟩
    · intro ⟨pk, hpk, hpkeq⟩
      have : Crypto.sha256Key K ∈
          (Crypto.wrapShards ent ent.fileKey 0 R).map (fun r => r.recipient_id) := by
        rw [hmap]
        exact hpkeq ▸ List.mem_map_of_mem _ hpk
      obtain ⟨r, hr, hid⟩ := List.mem_map.mp this
      simp only [Crypto.hasRecipientShard, Crypto.encryptPayloadForRecipients]
      exact List.any_eq_true.mpr ⟨r, hr, by simpa using hid⟩

/-- C10 witness: the hypothesis-bearing clauses of `C10_hasRecipientShard`
instantiated at concrete blobs. -/
theorem C10_hasRecipientShard_witness :
    Crypto.hasRecipientShard
        (some ⟨1, "e", none, none, none, none⟩) 7 = false ∧
    (Crypto.hasRecipientShard
        (some ⟨1, "e", none, none, none,
          some [⟨Crypto.sha256Key 7, ⟨0⟩, ⟨0⟩, ⟨⟨0, 0, 0⟩⟩⟩]⟩) 7 = true ↔
      ∃ r ∈ [(⟨Crypto.sha256Key 7, ⟨0⟩, ⟨0⟩, ⟨⟨0, 0, 0⟩⟩⟩ : Crypto.RecipientShard)],
        r.recipient_id = Crypto.sha256Key 7) :=
  ⟨(C10_hasRecipientShard 7).2.1 ⟨1, "e", none, none, none, none⟩ rfl,
   (C10_hasRecipientShard 7).2.2.1 _ _ rfl⟩

/-- JavaScript strings that the sources manipulate character-wise
(`toUpperCase`, `toLowerCase`, `startsWith`, `slice`) are modelled as
their character lists, so that the case and prefix operations are the
corresponding list operations. -/
abbrev JsStr := List Char

/-- Character list of a string literal. -/
def str (s : String) : JsStr := s.data

/-- `s.toUpperCase()`. -/
def jsToUpper (s : JsStr) : JsStr := s.map Char.toUpper

/-- `s.toLowerCase()`. -/
def jsToLower (s : JsStr) : JsStr := s.map Char.toLower

/-- `s.startsWith(p)`. -/
def jsStartsWith (s p : JsStr) : Bool := decide (s.take p.length = p)

namespace SendMessage

/-- The throw at the end of `resolveRecipientKey` ("Cannot resolve
encryption key ... no MessageKey set and the SigningPubKey could not be
converted"), the `NoEncryptionKey` failure of the spec. -/
inductive ResolveError where
  | noEncryptionKey
deriving DecidableEq, Repr

/-- What `resolveRecipientKey` returns: either the bytes of the on-chain
`MessageKey` used directly, or the X25519 key converted (via
`crypto_sign_ed25519_pk_to_curve25519`) from the hex string
`ed25519PubkeyHex`; recording the hex string the conversion was applied
to keeps the conversion input visible in theorems. -/
inductive ResolvedKey where
  | fromMessageKey (hex : JsStr)
  | derivedFromSigning (ed25519PubkeyHex : JsStr)
deriving DecidableEq, Repr

/-- Byte length of `Buffer.from(s, "hex")` for a well-formed hex string:
one byte per complete pair of hex digits (a trailing lone digit is
dropped by `Buffer.from`). -/
def hexByteLength (s : JsStr) : Nat := s.length / 2

deriving instance DecidableEq for Except

/-- The SigningPubKey fallback of `resolveRecipientKey`
(`src/tools/send_message.ts` lines 68-84): if the key is at least 64
characters, strip a leading case-insensitive "ED", and convert when the
remaining hex decodes to 32 bytes; otherwise throw. -/
def fallbackFromSigning (publicKey : Option JsStr) : Except ResolveError ResolvedKey :=
  match publicKey with
  | some pk =>
    if 64 ≤ pk.length then
      let pubkeyHex := if jsStartsWith (jsToUpper pk) (str "ED") then pk.drop 2 else pk
      if hexByteLength pubkeyHex = 32 then .ok (.derivedFromSigning pubkeyHex)
      else .error .noEncryptionKey
    else .error .noEncryptionKey
  | none => .error .noEncryptionKey

/-- `resolveRecipientKey` from `src/tools/send_message.ts`, as a function
of the `account_info` fields it reads (`messageKey`, `publicKey`); an
absent or empty (falsy) `messageKey` falls through to the SigningPubKey
fallback. -/
def resolveRecipientKey (messageKey publicKey : Option JsStr) :
    Except ResolveError ResolvedKey :=
  match messageKey with
  | some mk => if mk.isEmpty then fallbackFromSigning publicKey
               else .ok (.fromMessageKey mk)
  | none => fallbackFromSigning publicKey

/-- The in-repo test fixture (scripts/test-message-key-format.ts,
test 6): a 64-character hex value that happens to start with "ED". -/
def trickyKey64 : JsStr := str "ED" ++ List.replicate 62 'A'

/-- A 66-character "ED"-prefixed signing key. -/
def prefixedKey66 : JsStr := str "ED" ++ List.replicate 64 'A'

end SendMessage

/-- C2: the claim fails on the code.  `resolveRecipientKey` strips the
"ED" prefix from any fallback key of length ≥ 64 that starts with it,
with no check that the total length is 66: on the in-repo
64-character test fixture `trickyKey64` it strips to 62 hex characters
(31 bytes) and throws, instead of leaving the value untouched and using
it as-is; a 66-character prefixed key is stripped and used. -/
theorem C2_code_bug :
    SendMessage.trickyKey64.length = 64 ∧
    jsStartsWith (jsToUpper SendMessage.trickyKey64) (str "ED") = true ∧
    SendMessage.resolveRecipientKey none (some SendMessage.trickyKey64) =
      .error .noEncryptionKey ∧
    SendMessage.resolveRecipientKey none (some SendMessage.trickyKey64) ≠
      .ok (.derivedFromSigning SendMessage.trickyKey64) ∧
    SendMessage.prefixedKey66.length = 66 ∧
    SendMessage.resolveRecipientKey none (some SendMessage.prefixedKey66) =
      .ok (.derivedFromSigning (SendMessage.prefixedKey66.drop 2)) := by
  decide

namespace ChainPointer

/-- "pf.ptr" hex-encoded. -/
def PF_PTR_MEMO_TYPE_HEX : JsStr := str "70662e707472"

/-- "v4" hex-encoded. -/
def PF_PTR_MEMO_FORMAT_HEX : JsStr := str "7634"

/-- "keystone" hex-encoded. -/
def KEYSTONE_MEMO_TYPE_HEX : JsStr := str "6b657973746f6e65"

/-- "v1" hex-encoded. -/
def KEYSTONE_MEMO_FORMAT_HEX : JsStr := str "7631"

/-- The `MemoType` union `"pf.ptr" | "keystone" | "unknown"`. -/
inductive MemoType where
  | pfptr
  | keystone
  | unknown
deriving DecidableEq, Repr

/-- `identifyMemoType` from `src/chain/pointer.ts` (lines 76-93): exact
string equality against the lowercase constants. -/
def identifyMemoType (memoTypeHex memoFormatHex : JsStr) : MemoType :=
  if memoTypeHex = PF_PTR_MEMO_TYPE_HEX ∧ memoFormatHex = PF_PTR_MEMO_FORMAT_HEX then
    .pfptr
  else if memoTypeHex = KEYSTONE_MEMO_TYPE_HEX ∧ memoFormatHex = KEYSTONE_MEMO_FORMAT_HEX then
    .keystone
  else
    .unknown

end ChainPointer

namespace PointerV2

/-- `identifyMemoType` from the revised copy of the pointer module shipped
in the repository: "XRPL nodes return hex in uppercase; normalize to
lowercase for comparison". -/
def identifyMemoType (memoTypeHex memoFormatHex : JsStr) : ChainPointer.MemoType :=
  let type := jsToLower memoTypeHex
  let fmt := jsToLower memoFormatHex
  if type = ChainPointer.PF_PTR_MEMO_TYPE_HEX ∧ fmt = ChainPointer.PF_PTR_MEMO_FORMAT_HEX then
    .pfptr
  else if type = ChainPointer.KEYSTONE_MEMO_TYPE_HEX ∧
      fmt = ChainPointer.KEYSTONE_MEMO_FORMAT_HEX then
    .keystone
  else
    .unknown

end PointerV2

/-- C3: the claim fails on `identifyMemoType` as it stands in
`src/chain/pointer.ts`: the comparison is case-sensitive, so the
uppercase variant of the pointer constants (what XRPL nodes return)
identifies as unknown; only the all-lowercase spelling matches.  The
revised copy of the same function in the repository lowercases both
inputs first and identifies the uppercase variant as a pointer, as the
claim states. -/
theorem C3_code_bug :
    ChainPointer.identifyMemoType (str "70662E707472") (str "7634") =
      .unknown ∧
    ChainPointer.identifyMemoType (str "70662e707472") (str "7634") =
      .pfptr ∧
    ChainPointer.identifyMemoType (str "6B657973746F6E65") (str "7631") =
      .unknown ∧
    PointerV2.identifyMemoType (str "70662E707472") (str "7634") =
      .pfptr ∧
    PointerV2.identifyMemoType (str "6B657973746F6E65") (str "7631") =
      .keystone := by
  decide

namespace ChainPointer

/-- `POINTER_FLAGS.encrypted` (0x01). -/
def POINTER_FLAGS_encrypted : Nat := 0x01

/-- `POINTER_FLAGS.public` (0x02). -/
def POINTER_FLAGS_public : Nat := 0x02

/-- `POINTER_FLAGS.ephemeral` (0x04). -/
def POINTER_FLAGS_ephemeral : Nat := 0x04

/-- `POINTER_FLAGS.tombstone` (0x08). -/
def POINTER_FLAGS_tombstone : Nat := 0x08

/-- `POINTER_FLAGS.multipart` (0x10). -/
def POINTER_FLAGS_multipart : Nat := 0x10

end ChainPointer

namespace PointerV2

/-- Modelled from the spec: the `pf.common.v4.ContentKind` enum lives in
proto files (`src/grpc/protos/...`) that are not among the provided
sources.  The entries here are the ones documented in the source itself:
`CHAT = 4` (comment "kind=4 -> \x22CHAT\x22" and the `?? 4` fallback in
`buildPfPointerMemo`) and the mandatory proto3 zero value
`CONTENT_KIND_UNSPECIFIED = 0` (the default `decodePfPointer` falls back
to). -/
def contentKindValues : List (String × Nat) :=
  [("CONTENT_KIND_UNSPECIFIED", 0), ("CHAT", 4)]

/-- Modelled from the spec: the `Target` enum of the pointer proto, with
the entries documented in the source: `TARGET_CONTENT_BLOB = 1` (the
`?? 1` fallback) and the proto3 zero value `TARGET_UNSPECIFIED = 0` (the
decode default). -/
def targetValues : List (String × Nat) :=
  [("TARGET_UNSPECIFIED", 0), ("TARGET_CONTENT_BLOB", 1)]

/-- `enum.values[name]` of protobufjs: numeric code of an enum name. -/
def enumValue (table : List (String × Nat)) (name : String) : Option Nat :=
  (table.find? (fun p => p.1 = name)).map (fun p => p.2)

/-- `enum.valuesById[code]` of protobufjs: name of a numeric enum code. -/
def enumName (table : List (String × Nat)) (code : Nat) : Option String :=
  (table.find? (fun p => p.2 = code)).map (fun p => p.1)

/-- The `pf.ptr.v4.Pointer` protobuf message with enum fields as numeric
codes — what `Type.create` builds and `Type.decode` yields. -/
structure PbPointer where
  cid : String
  target : Nat
  kind : Nat
  schema : Nat
  taskId : String
  threadId : String
  contextId : String
  flags : Nat
deriving DecidableEq, Repr

/-- Protobuf wire bytes of a Pointer message, hex-encoded for the memo.
protobuf encoding of a message and its hex transport are injective with
`decode ∘ encode = id` at the message level (proto3 scalar fields), so
the byte string is modelled as a wrapper around the message it encodes. -/
structure PbBytes where
  msg : PbPointer
deriving DecidableEq, Repr

/-- `pfPointerType.encode(message).finish()` plus hex encoding. -/
def pbEncode (m : PbPointer) : PbBytes := ⟨m⟩

/-- `pfPointerType.decode(Buffer.from(memoDataHex, "hex"))`. -/
def pbDecode (b : PbBytes) : PbPointer := b.msg

/-- A field value of the plain object produced by `Type.toObject` with
`{ enums: String }`: the enum name when the code has one, the raw number
otherwise. -/
inductive EnumVal where
  | name (s : String)
  | code (n : Nat)
deriving DecidableEq, Repr

/-- `toObject` conversion of one enum field under `{ enums: String }`. -/
def enumToObject (table : List (String × Nat)) (code : Nat) : EnumVal :=
  match enumName table code with
  | some n => .name n
  | none => .code code

/-- The plain object `toObject(raw, { enums: String, defaults: true })`
makes of a Pointer message. -/
structure PbPointerObj where
  cid : String
  target : EnumVal
  kind : EnumVal
  schema : Nat
  taskId : String
  threadId : String
  contextId : String
  flags : Nat
deriving DecidableEq, Repr

/-- `pfPointerType.toObject(raw, { enums: String, defaults: true })`. -/
def toObject (m : PbPointer) : PbPointerObj :=
  { cid := m.cid
    target := enumToObject targetValues m.target
    kind := enumToObject contentKindValues m.kind
    schema := m.schema
    taskId := m.taskId
    threadId := m.threadId
    contextId := m.contextId
    flags := m.flags }

/-- JavaScript `s || dflt` on a string (empty string is falsy). -/
def jsOrStr (s dflt : String) : String := if s.isEmpty then dflt else s

/-- JavaScript `n || dflt` on a number (0 is falsy). -/
def jsOrNat (n dflt : Nat) : Nat := if n = 0 then dflt else n

/-- JavaScript `v || dflt` on a `toObject` enum field (enum names are
nonempty strings, the numeric code 0 is falsy). -/
def enumOr (v : EnumVal) (dflt : String) : EnumVal :=
  match v with
  | .name s => if s.isEmpty then .name dflt else .name s
  | .code n => if n = 0 then .name dflt else .code n

/-- The record returned by `decodePfPointer`. -/
structure DecodedPfPointer where
  cid : String
  target : EnumVal
  kind : EnumVal
  schema : Nat
  taskId : String
  threadId : String
  contextId : String
  flags : Nat
  isEncrypted : Bool
deriving DecidableEq, Repr

/-- `decodePfPointer(memoDataHex)` from the revised pointer module:
protobuf-decode, convert with `{ enums: String, defaults: true }`, then
apply the `||` defaults field by field. -/
def decodePfPointer (memoDataHex : PbBytes) : DecodedPfPointer :=
  let decoded := toObject (pbDecode memoDataHex)
  { cid := jsOrStr decoded.cid ""
    target := enumOr decoded.target "TARGET_UNSPECIFIED"
    kind := enumOr decoded.kind "CONTENT_KIND_UNSPECIFIED"
    schema := jsOrNat decoded.schema 0
    taskId := jsOrStr decoded.taskId ""
    threadId := jsOrStr decoded.threadId ""
    contextId := jsOrStr decoded.contextId ""
    flags := jsOrNat decoded.flags 0
    isEncrypted := decide ((decoded.flags &&& ChainPointer.POINTER_FLAGS_encrypted) ≠ 0) }

/-- The input record of `buildPfPointerMemo` (optional fields are
JavaScript optional parameters). -/
structure BuildInput where
  cid : String
  kind : Option String
  schema : Option Nat
  threadId : Option String
  contextId : Option String
  flags : Option Nat
deriving DecidableEq, Repr

/-- The hex memo triplet `buildPfPointerMemo` returns. -/
structure BuiltMemo where
  memoTypeHex : JsStr
  memoFormatHex : JsStr
  memoDataHex : PbBytes
deriving DecidableEq, Repr

/-- `Type.verify` on the payload: for enum fields protobufjs accepts
exactly the numeric codes of the enum (the source comments: "protobufjs
verify/create expect numbers for enum fields, not strings"); the other
fields are well-typed by construction here. -/
def verifyPointer (m : PbPointer) : Bool :=
  (enumName targetValues m.target).isSome && (enumName contentKindValues m.kind).isSome

/-- `buildPfPointerMemo(input)` from the revised pointer module: resolve
the enum names to numeric codes (with the `?? 1` / `?? 4` fallbacks),
apply the `||` / `??` defaults, verify, protobuf-encode, and attach the
pf.ptr memo type and format constants.  The error is the
`Invalid pointer payload` throw. -/
def buildPfPointerMemo (input : BuildInput) : Except String BuiltMemo :=
  let kindStr := jsOrStr (input.kind.getD "") "CHAT"
  let targetStr := "TARGET_CONTENT_BLOB"
  let payload : PbPointer :=
    { cid := input.cid
      target := (enumValue targetValues targetStr).getD 1
      kind := (enumValue contentKindValues kindStr).getD 4
      schema := jsOrNat (input.schema.getD 0) 1
      taskId := ""
      threadId := input.threadId.getD ""
      contextId := input.contextId.getD ""
      flags := input.flags.getD ChainPointer.POINTER_FLAGS_encrypted }
  if verifyPointer payload then
    .ok { memoTypeHex := ChainPointer.PF_PTR_MEMO_TYPE_HEX
          memoFormatHex := ChainPointer.PF_PTR_MEMO_FORMAT_HEX
          memoDataHex := pbEncode payload }
  else
    .error "Invalid pointer payload"

end PointerV2

namespace PointerV2

theorem jsOrStr_empty_dflt (s : String) : jsOrStr s "" = s := by
  unfold jsOrStr
  split
  · next h => exact ((String.isEmpty_iff s).mp h).symm
  · rfl

theorem jsOrNat_zero_dflt (n : Nat) : jsOrNat n 0 = n := by
  unfold jsOrNat
  split
  · next h => exact h.symm
  · rfl

end PointerV2

/-- C6: for every valid pointer field set (a kind from the content-kind
enum, a nonzero schema), decoding the memo produced by encoding returns
the same cid, kind, threadId, contextId, schema and flags, and the
decoded `isEncrypted` is true exactly when bit 0 (0x01) of `flags` is
set. -/
theorem C6_pointer_roundtrip (cid threadId contextId kindStr : String)
    (schema flags : Nat)
    (hkind : kindStr ∈ PointerV2.contentKindValues.map Prod.fst)
    (hschema : schema ≠ 0) :
    ∃ built,
      PointerV2.buildPfPointerMemo
          ⟨cid, some kindStr, some schema, some threadId, some contextId, some flags⟩ =
        .ok built ∧
      (PointerV2.decodePfPointer built.memoDataHex).cid = cid ∧
      (PointerV2.decodePfPointer built.memoDataHex).kind = .name kindStr ∧
      (PointerV2.decodePfPointer built.memoDataHex).threadId = threadId ∧
      (PointerV2.decodePfPointer built.memoDataHex).contextId = contextId ∧
      (PointerV2.decodePfPointer built.memoDataHex).schema = schema ∧
      (PointerV2.decodePfPointer built.memoDataHex).flags = flags ∧
      ((PointerV2.decodePfPointer built.memoDataHex).isEncrypted = true ↔
        flags &&& 0x01 ≠ 0) := by
  simp only [PointerV2.contentKindValues, List.map, List.mem_cons,
    List.not_mem_nil, or_false] at hkind
  have hflags : PointerV2.jsOrNat flags 0 = flags := PointerV2.jsOrNat_zero_dflt flags
  have hschema' : PointerV2.jsOrNat (PointerV2.jsOrNat schema 1) 0 = schema := by
    rw [PointerV2.jsOrNat_zero_dflt]
    unfold PointerV2.jsOrNat
    split
    · next h => exact absurd h hschema
    · rfl
  rcases hkind with hk | hk <;> subst hk <;>
    refine ⟨_, rfl, ?_, ?_, ?_, ?_, ?_, ?_, ?_⟩ <;>
    simp only [PointerV2.decodePfPointer, PointerV2.buildPfPointerMemo,
      PointerV2.toObject, PointerV2.pbDecode, PointerV2.pbEncode,
      PointerV2.enumToObject, PointerV2.enumName, PointerV2.enumValue,
      PointerV2.contentKindValues, PointerV2.targetValues, PointerV2.enumOr,
      PointerV2.jsOrStr_empty_dflt, hflags, hschema',
      ChainPointer.POINTER_FLAGS_encrypted] <;>
    first
      | rfl
      | decide
      | simp [PointerV2.jsOrStr_empty_dflt, hflags, hschema']

/-- C6 witness (Scenario B): encoding `cid="bafkxyz", kind=CHAT,
threadId="t1", flags=0x01 (encrypted), schema=1, contextId=""` and
decoding yields the same fields with `isEncrypted = true`. -/
theorem C6_pointer_roundtrip_witness :
    ("CHAT" ∈ PointerV2.contentKindValues.map Prod.fst ∧ (1 : Nat) ≠ 0) ∧
    ∃ built,
      PointerV2.buildPfPointerMemo
          ⟨"bafkxyz", some "CHAT", some 1, some "t1", some "", some 1⟩ =
        .ok built ∧
      (PointerV2.decodePfPointer built.memoDataHex).cid = "bafkxyz" ∧
      (PointerV2.decodePfPointer built.memoDataHex).kind = .name "CHAT" ∧
      (PointerV2.decodePfPointer built.memoDataHex).threadId = "t1" ∧
      (PointerV2.decodePfPointer built.memoDataHex).contextId = "" ∧
      (PointerV2.decodePfPointer built.memoDataHex).schema = 1 ∧
      (PointerV2.decodePfPointer built.memoDataHex).flags = 1 ∧
      ((PointerV2.decodePfPointer built.memoDataHex).isEncrypted = true ↔
        (1 : Nat) &&& 0x01 ≠ 0) :=
  ⟨⟨by decide, by decide⟩,
   C6_pointer_roundtrip "bafkxyz" "t1" "" "CHAT" 1 1 (by decide) (by decide)⟩

namespace Scanner

/-- The ledger `Amount` union as it arrives in JSON: a string (native
drops), an object (issued currency), or absent/other. -/
inductive JsAmount where
  | str (s : String)
  | obj (currency issuer value : String)
  | absent
deriving DecidableEq, Repr

/-- `IssuedCurrencyAmount` from `src/chain/scanner.ts`. -/
structure IssuedCurrencyAmount where
  currency : String
  issuer : String
  value : String
deriving DecidableEq, Repr

/-- The amount-parsing block of `scanMessages` (`src/chain/scanner.ts`
lines 166-177): string = native drops, object = issued currency with
drops defaulting to "0", anything else keeps both defaults. -/
def parseAmount (a : JsAmount) : String × Option IssuedCurrencyAmount :=
  match a with
  | .str s => (s, none)
  | .obj c i v => ("0", some ⟨c, i, v⟩)
  | .absent => ("0", none)

/-- The fields of a decoded pf.ptr pointer that `scanMessages` reads. -/
structure ScanPointer where
  cid : String
  threadId : String
  kind : PointerV2.EnumVal
  isEncrypted : Bool
deriving DecidableEq, Repr

/-- The fields of a decoded keystone envelope that `scanMessages` reads
(`metadataCid` is `envelope.metadata?.cid`, `none` when absent). -/
structure ScanEnvelope where
  encryption : String
  metadataCid : Option String
deriving DecidableEq, Repr

/-- A throw out of `decodePfPointer` / `decodeKeystoneEnvelope`
(malformed protobuf bytes), caught by the `try { ... } catch` of the
scanner. -/
inductive DecodeError where
  | throwInDecode
deriving DecidableEq, Repr

/-- One memo object (`memos[i]?.Memo`); the hex fields are character
lists so the (case-handling) memo identification applies to them. -/
structure TxMemoInner where
  MemoType : JsStr
  MemoFormat : Option JsStr
  MemoData : JsStr
deriving DecidableEq, Repr

/-- The transaction body (`entry.tx || entry.tx_json`, collapsed into one
optional field of `TxEntry`). -/
structure TxBody where
  TransactionType : String
  Account : String
  Destination : String
  Amount : JsAmount
  Memos : Option (List (Option TxMemoInner))
  hash : Option String
  date : Option Nat
  ledger_index : Option Nat
deriving DecidableEq, Repr

/-- The transaction metadata (`entry.meta || entry.metadata`). -/
structure TxMeta where
  TransactionResult : Option String
deriving DecidableEq, Repr

/-- One entry of the `account_tx` result list. -/
structure TxEntry where
  tx : Option TxBody
  meta : Option TxMeta
  hash : Option String
  ledger_index : Option Nat
deriving DecidableEq, Repr

/-- A throw out of `accountTx` (HTTP failure or an error object in the
JSON-RPC result): the transport-level failure of the history fetch. -/
structure TransportError where
  message : String
deriving DecidableEq, Repr

/-- `ScannedMessage` from `src/chain/scanner.ts` (the `decodedMemo` field,
a read-only copy of the decoded record, is elided). -/
structure ScannedMessage where
  txHash : String
  sender : String
  recipient : String
  direction : String
  amountDrops : String
  issuedCurrencyAmount : Option IssuedCurrencyAmount
  memoType : ChainPointer.MemoType
  cid : Option String
  threadId : Option String
  contentKind : Option PointerV2.EnumVal
  isEncrypted : Bool
  ledgerIndex : Nat
  timestamp : Nat
deriving DecidableEq, Repr

/-- JavaScript `x || y` over optional strings ("" is falsy). -/
def truthyStr (o : Option String) : Option String :=
  o.bind (fun s => if s.isEmpty then none else some s)

/-- JavaScript `x || y` over optional numbers (0 is falsy). -/
def truthyNat (o : Option Nat) : Option Nat :=
  o.bind (fun n => if n = 0 then none else some n)

/-- `rippleTimeToUnix` from `src/chain/scanner.ts`. -/
def rippleTimeToUnix (rippleTime : Nat) : Nat := rippleTime + 946684800

/-- The `messages.push({...})` record of `scanMessages`: the tx-level
fields combined with the memo-level fields computed before the push. -/
def mkMessage (botAddress : String) (entry : TxEntry) (tx : TxBody)
    (memoType : ChainPointer.MemoType) (cid : Option String)
    (threadId : Option String) (contentKind : Option PointerV2.EnumVal)
    (isEncrypted : Bool) : ScannedMessage :=
  let sender := tx.Account
  let recipient := tx.Destination
  let direction := if sender = botAddress then "outbound" else "inbound"
  let parsed := parseAmount tx.Amount
  { txHash := ((truthyStr tx.hash).orElse (fun _ => truthyStr entry.hash)).getD ""
    sender := sender
    recipient := recipient
    direction := direction
    amountDrops := parsed.1
    issuedCurrencyAmount := parsed.2
    memoType := memoType
    cid := cid
    threadId := threadId
    contentKind := contentKind
    isEncrypted := isEncrypted
    ledgerIndex :=
      ((truthyNat entry.ledger_index).orElse (fun _ => truthyNat tx.ledger_index)).getD 0
    timestamp :=
      match truthyNat tx.date with
      | some d => rippleTimeToUnix d
      | none => 0 }

/-- The per-memo body of the scan loop: presence checks, memo
identification, decoding (with the `try/catch` that skips memos whose
decode throws), the default CHAT filter for pointers, and the push.
The two protobuf decoders are injected (`decodePtr`, `decodeEnv`),
quantifying the theorems over every decoder behaviour. -/
def processMemo (decodePtr : JsStr → Except DecodeError ScanPointer)
    (decodeEnv : JsStr → Except DecodeError ScanEnvelope)
    (botAddress : String) (entry : TxEntry) (tx : TxBody)
    (memoEntry : Option TxMemoInner) : List ScannedMessage :=
  match memoEntry with
  | none => []
  | some memo =>
    if memo.MemoType.isEmpty || memo.MemoData.isEmpty then []
    else
      let memoFormatHex := memo.MemoFormat.getD []
      match ChainPointer.identifyMemoType memo.MemoType memoFormatHex with
      | .unknown => []
      | .pfptr =>
        match decodePtr memo.MemoData with
        | .error _ => []
        | .ok pointer =>
          if pointer.kind ≠ .name "CHAT" ∧ pointer.kind ≠ .name "4" then []
          else
            [mkMessage botAddress entry tx .pfptr (some pointer.cid)
              (truthyStr (some pointer.threadId)) (some pointer.kind)
              pointer.isEncrypted]
      | .keystone =>
        match decodeEnv memo.MemoData with
        | .error _ => []
        | .ok envelope =>
          [mkMessage botAddress entry tx .keystone
            (truthyStr envelope.metadataCid) none none
            (envelope.encryption = "ENCRYPTION_MODE_PUBLIC_KEY" ∨
              envelope.encryption = "ENCRYPTION_MODE_PROTECTED")]

/-- The per-transaction body of the scan loop: skip unless a payment
with a `tesSUCCESS` (or absent) result and a nonempty memo list, then
process each memo independently. -/
def processEntry (decodePtr : JsStr → Except DecodeError ScanPointer)
    (decodeEnv : JsStr → Except DecodeError ScanEnvelope)
    (botAddress : String) (entry : TxEntry) : List ScannedMessage :=
  match entry.tx, entry.meta with
  | some tx, some meta =>
    if tx.TransactionType ≠ "Payment" then []
    else if (match meta.TransactionResult with
             | some r => decide (r ≠ "tesSUCCESS")
             | none => false) then []
    else
      match tx.Memos with
      | none => []
      | some memos =>
        if memos.isEmpty then []
        else (memos.map (processMemo decodePtr decodeEnv botAddress entry tx)).flatten
  | _, _ => []

/-- `scanMessages` from `src/chain/scanner.ts`, as a function of the
outcome of the `accountTx` history fetch (a transport error propagates;
an ok result is processed transaction by transaction, memo by memo). -/
def scanMessages (decodePtr : JsStr → Except DecodeError ScanPointer)
    (decodeEnv : JsStr → Except DecodeError ScanEnvelope)
    (botAddress : String) (fetched : Except TransportError (List TxEntry)) :
    Except TransportError (List ScannedMessage) :=
  match fetched with
  | .error e => .error e
  | .ok txs => .ok ((txs.map (processEntry decodePtr decodeEnv botAddress)).flatten)

end Scanner

/-- C7: scanning only fails when the history fetch fails at the
transport level; on any fetched history it returns a result, and each
per-item failure (non-payment transaction, explicitly failed
transaction, unknown memo type, memo whose decode throws) only excludes
that item. -/
theorem C7_scan_error_handling
    (decodePtr : JsStr → Except Scanner.DecodeError Scanner.ScanPointer)
    (decodeEnv : JsStr → Except Scanner.DecodeError Scanner.ScanEnvelope)
    (bot : String) :
    (∀ e, Scanner.scanMessages decodePtr decodeEnv bot (.error e) = .error e) ∧
    (∀ txs, ∃ ms, Scanner.scanMessages decodePtr decodeEnv bot (.ok txs) = .ok ms) ∧
    (∀ entry tx, entry.tx = some tx → tx.TransactionType ≠ "Payment" →
      Scanner.processEntry decodePtr decodeEnv bot entry = []) ∧
    (∀ entry tx meta r, entry.tx = some tx → entry.meta = some meta →
      meta.TransactionResult = some r → r ≠ "tesSUCCESS" →
      Scanner.processEntry decodePtr decodeEnv bot entry = []) ∧
    (∀ entry tx memo,
      ChainPointer.identifyMemoType memo.MemoType (memo.MemoFormat.getD []) =
        .unknown →
      Scanner.processMemo decodePtr decodeEnv bot entry tx (some memo) = []) ∧
    (∀ entry tx memo err,
      ChainPointer.identifyMemoType memo.MemoType (memo.MemoFormat.getD []) =
        .pfptr →
      decodePtr memo.MemoData = .error err →
      Scanner.processMemo decodePtr decodeEnv bot entry tx (some memo) = []) ∧
    (∀ entry tx memo err,
      ChainPointer.identifyMemoType memo.MemoType (memo.MemoFormat.getD []) =
        .keystone →
      decodeEnv memo.MemoData = .error err →
      Scanner.processMemo decodePtr decodeEnv bot entry tx (some memo) = []) := by
  refine ⟨fun e => rfl, fun txs => ⟨_, rfl⟩, ?_, ?_, ?_, ?_, ?_⟩
  · intro entry tx htx hty
    cases hmeta : entry.meta with
    | none => simp [Scanner.processEntry, htx, hmeta]
    | some meta => simp [Scanner.processEntry, htx, hmeta, hty]
  · intro entry tx meta r htx hmeta hres hr
    simp [Scanner.processEntry, htx, hmeta, hres, hr]
  · intro entry tx memo hid
    simp only [Scanner.processMemo]
    split
    · rfl
    · rw [hid]
  · intro entry tx memo err hid hdec
    simp only [Scanner.processMemo]
    split
    · rfl
    · rw [hid, hdec]
  · intro entry tx memo err hid hdec
    simp only [Scanner.processMemo]
    split
    · rfl
    · rw [hid, hdec]

/-- C7 witness: the clauses of `C7_scan_error_handling` at concrete
inputs — an AccountSet transaction, a failed payment, a memo of unknown
type, and a pf.ptr memo whose decoder throws, each contributing nothing;
a transport error propagating. -/
theorem C7_scan_error_handling_witness :
    (Scanner.scanMessages (fun _ => .error .throwInDecode)
        (fun _ => .error .throwInDecode) "rBot" (.error ⟨"account_tx failed: 500"⟩) =
      .error ⟨"account_tx failed: 500"⟩) ∧
    (Scanner.processEntry (fun _ => .error .throwInDecode)
        (fun _ => .error .throwInDecode) "rBot"
        ⟨some ⟨"AccountSet", "rA", "rB", .absent, none, none, none, none⟩,
          some ⟨some "tesSUCCESS"⟩, none, none⟩ = []) ∧
    (Scanner.processEntry (fun _ => .error .throwInDecode)
        (fun _ => .error .throwInDecode) "rBot"
        ⟨some ⟨"Payment", "rA", "rB", .absent, none, none, none, none⟩,
          some ⟨some "tecUNFUNDED"⟩, none, none⟩ = []) ∧
    (Scanner.processMemo (fun _ => .error .throwInDecode)
        (fun _ => .error .throwInDecode) "rBot"
        ⟨none, none, none, none⟩ ⟨"Payment", "rA", "rB", .absent, none, none, none, none⟩
        (some ⟨str "dead", some (str "beef"), str "00"⟩) = []) ∧
    (Scanner.processMemo (fun _ => .error .throwInDecode)
        (fun _ => .error .throwInDecode) "rBot"
        ⟨none, none, none, none⟩ ⟨"Payment", "rA", "rB", .absent, none, none, none, none⟩
        (some ⟨str "70662e707472", some (str "7634"), str "00"⟩) = []) :=
  ⟨(C7_scan_error_handling (fun _ => .error .throwInDecode)
      (fun _ => .error .throwInDecode) "rBot").1 ⟨"account_tx failed: 500"⟩,
   (C7_scan_error_handling (fun _ => .error .throwInDecode)
      (fun _ => .error .throwInDecode) "rBot").2.2.1 _ _ rfl (by decide),
   (C7_scan_error_handling (fun _ => .error .throwInDecode)
      (fun _ => .error .throwInDecode) "rBot").2.2.2.1 _ _ _ "tecUNFUNDED" rfl rfl rfl
      (by decide),
   (C7_scan_error_handling (fun _ => .error .throwInDecode)
      (fun _ => .error .throwInDecode) "rBot").2.2.2.2.1 _ _ _ (by decide),
   (C7_scan_error_handling (fun _ => .error .throwInDecode)
      (fun _ => .error .throwInDecode) "rBot").2.2.2.2.2.1 _ _ _ .throwInDecode
      (by decide) rfl⟩

/-- C8: a string-typed `Amount` leaves the native drops value and a null
issued-currency amount on the scanned message (through the push record of
the scan loop); an object-typed `Amount` leaves the issued-currency
tuple with the native drops amount defaulting to "0". -/
theorem C8_amount_parsing (bot : String) (entry : Scanner.TxEntry)
    (tx : Scanner.TxBody) (memoType : ChainPointer.MemoType)
    (cid threadId : Option String) (contentKind : Option PointerV2.EnumVal)
    (isEncrypted : Bool) :
    (∀ s, tx.Amount = .str s →
      (Scanner.mkMessage bot entry tx memoType cid threadId contentKind
          isEncrypted).amountDrops = s ∧
      (Scanner.mkMessage bot entry tx memoType cid threadId contentKind
          isEncrypted).issuedCurrencyAmount = none) ∧
    (∀ c i v, tx.Amount = .obj c i v →
      (Scanner.mkMessage bot entry tx memoType cid threadId contentKind
          isEncrypted).amountDrops = "0" ∧
      (Scanner.mkMessage bot entry tx memoType cid threadId contentKind
          isEncrypted).issuedCurrencyAmount = some ⟨c, i, v⟩) := by
  constructor
  · intro s hs
    constructor <;> simp [Scanner.mkMessage, Scanner.parseAmount, hs]
  · intro c i v hs
    constructor <;> simp [Scanner.mkMessage, Scanner.parseAmount, hs]

/-- C8 witness (Scenario E): a scanned payment of `"25000000"` drops and
one of `{currency: "USD", issuer: "rX", value: "10"}`. -/
theorem C8_amount_parsing_witness :
    ((Scanner.mkMessage "rBot" ⟨none, none, none, none⟩
        ⟨"Payment", "rA", "rBot", .str "25000000", none, none, none, none⟩
        .pfptr none none none false).amountDrops = "25000000" ∧
      (Scanner.mkMessage "rBot" ⟨none, none, none, none⟩
        ⟨"Payment", "rA", "rBot", .str "25000000", none, none, none, none⟩
        .pfptr none none none false).issuedCurrencyAmount = none) ∧
    ((Scanner.mkMessage "rBot" ⟨none, none, none, none⟩
        ⟨"Payment", "rA", "rBot", .obj "USD" "rX" "10", none, none, none, none⟩
        .pfptr none none none false).amountDrops = "0" ∧
      (Scanner.mkMessage "rBot" ⟨none, none, none, none⟩
        ⟨"Payment", "rA", "rBot", .obj "USD" "rX" "10", none, none, none, none⟩
        .pfptr none none none false).issuedCurrencyAmount = some ⟨"USD", "rX", "10"⟩) :=
  ⟨(C8_amount_parsing "rBot" ⟨none, none, none, none⟩
      ⟨"Payment", "rA", "rBot", .str "25000000", none, none, none, none⟩
      .pfptr none none none false).1 "25000000" rfl,
   (C8_amount_parsing "rBot" ⟨none, none, none, none⟩
      ⟨"Payment", "rA", "rBot", .obj "USD" "rX" "10", none, none, none, none⟩
      .pfptr none none none false).2 "USD" "rX" "10" rfl⟩

namespace ScanTool

/-- `Math.max(...l)` over a nonempty list of ledger indices (the guard in
the source ensures the list is nonempty). -/
def listMax (l : List Nat) : Nat := l.foldl max 0

/-- The response record `executeScanMessages` serialises (messages,
count, next_cursor); the per-message snake_case rendering of the source
is a field renaming and is elided, one response item per message. -/
structure ScanResponse where
  messages : List Scanner.ScannedMessage
  count : Nat
  next_cursor : Option Nat
deriving DecidableEq, Repr

/-- The direction filter of `executeScanMessages`
(`src` scan_messages tool): default "inbound", "both" disables it. -/
def filteredMessages (messages : List Scanner.ScannedMessage)
    (direction : Option String) : List Scanner.ScannedMessage :=
  let dir := PointerV2.jsOrStr (direction.getD "") "inbound"
  if dir = "both" then messages else messages.filter (fun m => m.direction = dir)

/-- `params.since_ledger || null`: the cursor returned on an empty scan. -/
def emptyCursor (since : Option Nat) : Option Nat :=
  match since with
  | some s => if s = 0 then none else some s
  | none => none

/-- `executeScanMessages` from the scan_messages tool, as a function of
the scanned messages and the `direction` / `since_ledger` parameters:
filter by direction, then return either the empty response with
`next_cursor = since_ledger || null`, or the filtered messages with
`next_cursor = Math.max(ledger indices) + 1`. -/
def executeScanMessages (messages : List Scanner.ScannedMessage)
    (direction : Option String) (since : Option Nat) : ScanResponse :=
  let filtered := filteredMessages messages direction
  if filtered.isEmpty then
    { messages := [], count := 0, next_cursor := emptyCursor since }
  else
    { messages := filtered
      count := filtered.length
      next_cursor := some (listMax (filtered.map (fun m => m.ledgerIndex)) + 1) }

theorem foldl_max_init_le (l : List Nat) : ∀ a, a ≤ l.foldl max a := by
  induction l with
  | nil => intro a; exact Nat.le_refl a
  | cons x xs ih => intro a; exact le_trans (Nat.le_max_left a x) (ih (max a x))

theorem foldl_max_le_of_mem (l : List Nat) : ∀ a x, x ∈ l → x ≤ l.foldl max a := by
  induction l with
  | nil => intro a x hx; cases hx
  | cons y ys ih =>
    intro a x hx
    cases hx with
    | head => exact le_trans (Nat.le_max_right a y) (foldl_max_init_le ys (max a y))
    | tail _ h => exact ih (max a y) x h

theorem foldl_max_eq_init_or_mem (l : List Nat) :
    ∀ a, l.foldl max a = a ∨ l.foldl max a ∈ l := by
  induction l with
  | nil => intro a; exact Or.inl rfl
  | cons x xs ih =>
    intro a
    rcases ih (max a x) with h | h
    · rcases Nat.le_total a x with hax | hxa
      · right
        rw [List.foldl_cons, h, Nat.max_eq_right hax]
        exact List.mem_cons_self x xs
      · left
        rw [List.foldl_cons, h, Nat.max_eq_left hxa]
    · right
      rw [List.foldl_cons]
      exact List.mem_cons_of_mem x h

theorem listMax_mem (l : List Nat) (h : l ≠ []) : listMax l ∈ l := by
  rcases foldl_max_eq_init_or_mem l 0 with h0 | hm
  · cases l with
    | nil => exact absurd rfl h
    | cons x xs =>
      have hx : x ≤ (x :: xs).foldl max 0 :=
        foldl_max_le_of_mem _ 0 x (List.mem_cons_self x xs)
      rw [h0] at hx
      unfold listMax
      rw [h0, ← Nat.le_zero.mp hx]
      exact List.mem_cons_self x xs
  · exact hm

theorem le_listMax (l : List Nat) (x : Nat) (hx : x ∈ l) : x ≤ listMax l :=
  foldl_max_le_of_mem l 0 x hx

theorem executeScan_of_empty (messages : List Scanner.ScannedMessage)
    (direction : Option String) (since : Option Nat)
    (h : filteredMessages messages direction = []) :
    executeScanMessages messages direction since =
      { messages := [], count := 0, next_cursor := emptyCursor since } := by
  simp [executeScanMessages, h]

theorem executeScan_of_ne (messages : List Scanner.ScannedMessage)
    (direction : Option String) (since : Option Nat)
    (h : filteredMessages messages direction ≠ []) :
    executeScanMessages messages direction since =
      { messages := filteredMessages messages direction
        count := (filteredMessages messages direction).length
        next_cursor :=
          some (listMax ((filteredMessages messages direction).map
            (fun m => m.ledgerIndex)) + 1) } := by
  simp [executeScanMessages, h]

end ScanTool

/-- C4 counterexample: an empty scan with a caller-supplied
`since_ledger = 0` returns `next_cursor = null` (the source computes
`params.since_ledger || null` and `0` is falsy), not the caller-supplied
cursor `0` the claim requires. -/
theorem C4_counterexample :
    (ScanTool.executeScanMessages [] none (some 0)).next_cursor = none ∧
    (ScanTool.executeScanMessages [] none (some 0)).next_cursor ≠ some 0 := by
  decide

/-- C4 amended: when at least one message is returned, the next cursor
is the maximum ledger index over the returned messages plus one; when no
message is returned, the next cursor equals the caller-supplied
`sinceLedgerIndex` when that is nonzero, and is null when it is absent
or zero. -/
theorem C4_cursor (messages : List Scanner.ScannedMessage)
    (direction : Option String) (since : Option Nat) :
    ((ScanTool.executeScanMessages messages direction since).messages ≠ [] →
      ∃ c, (ScanTool.executeScanMessages messages direction since).next_cursor =
          some (c + 1) ∧
        (∃ m ∈ (ScanTool.executeScanMessages messages direction since).messages,
          m.ledgerIndex = c) ∧
        ∀ m ∈ (ScanTool.executeScanMessages messages direction since).messages,
          m.ledgerIndex ≤ c) ∧
    (∀ s, (ScanTool.executeScanMessages messages direction since).messages = [] →
      since = some s → s ≠ 0 →
      (ScanTool.executeScanMessages messages direction since).next_cursor = some s) ∧
    ((ScanTool.executeScanMessages messages direction since).messages = [] →
      since = none ∨ since = some 0 →
      (ScanTool.executeScanMessages messages direction since).next_cursor = none) := by
  by_cases h : ScanTool.filteredMessages messages direction = []
  · rw [ScanTool.executeScan_of_empty messages direction since h]
    refine ⟨fun hne => absurd rfl hne, ?_, ?_⟩
    · intro s _ hs hs0
      simp [ScanTool.emptyCursor, hs, hs0]
    · intro _ hor
      rcases hor with hn | h0
      · simp [ScanTool.emptyCursor, hn]
      · simp [ScanTool.emptyCursor, h0]
  · rw [ScanTool.executeScan_of_ne messages direction since h]
    refine ⟨?_, ?_, ?_⟩
    · intro _
      refine ⟨ScanTool.listMax ((ScanTool.filteredMessages messages direction).map
        (fun m => m.ledgerIndex)), rfl, ?_, ?_⟩
      · have hmap : (ScanTool.filteredMessages messages direction).map
            (fun m => m.ledgerIndex) ≠ [] := by
          simpa using h
        have := ScanTool.listMax_mem _ hmap
        obtain ⟨m, hm, hmi⟩ := List.mem_map.mp this
        exact ⟨m, hm, hmi⟩
      · intro m hm
        exact ScanTool.le_listMax _ _ (List.mem_map_of_mem _ hm)
    · intro s hmsgs _ _
      exact absurd hmsgs h
    · intro hmsgs _
      exact absurd hmsgs h

/-- C4 witness: one inbound message at ledger index 500 yields
`next_cursor = 501` (Scenario C); the hypothesis-bearing empty-scan
clause instantiated with `since_ledger = 7`. -/
theorem C4_cursor_witness :
    ((ScanTool.executeScanMessages
        [⟨"h", "rA", "rBot", "inbound", "1", none, .pfptr, some "c", none, none,
          true, 500, 0⟩] (some "inbound") (some 3)).messages ≠ [] ∧
      ∃ c, (ScanTool.executeScanMessages
          [⟨"h", "rA", "rBot", "inbound", "1", none, .pfptr, some "c", none, none,
            true, 500, 0⟩] (some "inbound") (some 3)).next_cursor = some (c + 1) ∧
        (∃ m ∈ (ScanTool.executeScanMessages
            [⟨"h", "rA", "rBot", "inbound", "1", none, .pfptr, some "c", none, none,
              true, 500, 0⟩] (some "inbound") (some 3)).messages, m.ledgerIndex = c) ∧
        ∀ m ∈ (ScanTool.executeScanMessages
            [⟨"h", "rA", "rBot", "inbound", "1", none, .pfptr, some "c", none, none,
              true, 500, 0⟩] (some "inbound") (some 3)).messages, m.ledgerIndex ≤ c) ∧
    ((ScanTool.executeScanMessages [] none (some 7)).messages = [] ∧
      (ScanTool.executeScanMessages [] none (some 7)).next_cursor = some 7) :=
  ⟨⟨by decide,
    (C4_cursor [⟨"h", "rA", "rBot", "inbound", "1", none, .pfptr, some "c", none,
        none, true, 500, 0⟩] (some "inbound") (some 3)).1 (by decide)⟩,
   ⟨by decide,
    (C4_cursor [] none (some 7)).2.1 7 (by decide) rfl (by decide)⟩⟩

namespace Submitter

/-- Outcome of one `rpcCall(rpcUrl, "tx", ...)` poll: either a throw
(caught by the loop, which keeps polling) or a response with its
`validated` flag and `meta.TransactionResult` (`none` for absent or
empty, both falsy). -/
inductive PollResponse where
  | err
  | result (validated : Bool) (metaResult : Option String)
deriving DecidableEq, Repr

/-- `const maxAttempts = 30`. -/
def maxAttempts : Nat := 30

/-- `meta.TransactionResult || engineResult || "tesSUCCESS"`: the result
string returned on a validated poll. -/
def validatedResult (metaResult : Option String) (engineResult : String) : String :=
  PointerV2.jsOrStr (metaResult.getD "") (PointerV2.jsOrStr engineResult "tesSUCCESS")

/-- The result string returned when the attempt budget is exhausted:
`submitted (${engineResult}) but not yet validated after ${maxAttempts * 2}s`. -/
def unresolvedResult (engineResult : String) : String :=
  "submitted (" ++ engineResult ++ ") but not yet validated after " ++
    toString (maxAttempts * 2) ++ "s"

/-- The poll loop of `submitAndPoll`: `i` is the attempt index reached so
far (and the number of polls already made, one `rpcCall("tx", ...)` per
iteration), the second argument the remaining attempts.  Returns the
result string together with the total number of polls performed. -/
def pollFrom (polls : Nat → PollResponse) (engineResult : String) :
    Nat → Nat → String × Nat
  | i, 0 => (unresolvedResult engineResult, i)
  | i, fuel + 1 =>
    match polls i with
    | .err => pollFrom polls engineResult (i + 1) fuel
    | .result validated metaResult =>
      if validated then (validatedResult metaResult engineResult, i + 1)
      else pollFrom polls engineResult (i + 1) fuel

/-- `submitAndPoll` from the HTTP submitter (the same submit-once /
reject-without-polling / poll-to-30 flow is inlined in
`publishMessageKey` in `src/chain/submitter.ts`), as a function of the
immediate `engine_result` of the single submit call (`none`/`""` for an
absent falsy value) and of the poll responses.  Returns the `result`
string and the number of polls performed. -/
def submitAndPoll (engineResult : Option String) (polls : Nat → PollResponse) :
    String × Nat :=
  let er := engineResult.getD ""
  if er ≠ "tesSUCCESS" ∧ er ≠ "terQUEUED" then
    (PointerV2.jsOrStr er "unknown", 0)
  else
    pollFrom polls er 0 maxAttempts

theorem jsOrStr_of_ne_empty (s d : String) (h : s ≠ "") :
    PointerV2.jsOrStr s d = s := by
  unfold PointerV2.jsOrStr
  split
  · next he => exact absurd ((String.isEmpty_iff s).mp he) h
  · rfl

theorem pollFrom_exhaust (polls : Nat → PollResponse) (er : String) :
    ∀ (fuel i : Nat),
      (∀ d < fuel, polls (i + d) = .err ∨ ∃ m, polls (i + d) = .result false m) →
      pollFrom polls er i fuel = (unresolvedResult er, i + fuel) := by
  intro fuel
  induction fuel with
  | zero => intro i _; rfl
  | succ f ih =>
    intro i h
    have h0 := h 0 (by omega)
    rw [Nat.add_zero] at h0
    have hrec := ih (i + 1) (fun d hd => by
      have hx := h (d + 1) (by omega)
      have heq : i + (d + 1) = i + 1 + d := by omega
      rwa [heq] at hx)
    have hfin : i + 1 + f = i + (f + 1) := by omega
    rcases h0 with he | ⟨m, hm⟩
    · rw [pollFrom, he, hrec, hfin]
    · rw [pollFrom, hm]
      simp only [if_neg (by simp : ¬(false = true))]
      rw [hrec, hfin]

theorem pollFrom_first_validated (polls : Nat → PollResponse) (er : String)
    (m : Option String) :
    ∀ (j i fuel : Nat), j < fuel →
      polls (i + j) = .result true m →
      (∀ d < j, polls (i + d) = .err ∨ ∃ m', polls (i + d) = .result false m') →
      pollFrom polls er i fuel = (validatedResult m er, i + j + 1) := by
  intro j
  induction j with
  | zero =>
    intro i fuel hj hv _
    cases fuel with
    | zero => exact absurd hj (Nat.not_lt_zero _)
    | succ f =>
      rw [Nat.add_zero] at hv
      rw [pollFrom, hv]
      simp
  | succ k ih =>
    intro i fuel hj hv hskip
    cases fuel with
    | zero => exact absurd hj (Nat.not_lt_zero _)
    | succ f =>
      have h0 := hskip 0 (by omega)
      rw [Nat.add_zero] at h0
      have hv2 : polls (i + 1 + k) = .result true m := by
        have heq : i + (k + 1) = i + 1 + k := by omega
        rwa [heq] at hv
      have hrec := ih (i + 1) f (by omega) hv2 (fun d hd => by
        have hx := hskip (d + 1) (by omega)
        have heq : i + (d + 1) = i + 1 + d := by omega
        rwa [heq] at hx)
      have hfin : i + 1 + k + 1 = i + (k + 1) + 1 := by omega
      rcases h0 with he | ⟨mm, hm⟩
      · rw [pollFrom, he, hrec, hfin]
      · rw [pollFrom, hm]
        simp only [if_neg (by simp : ¬(false = true))]
        rw [hrec, hfin]

end Submitter

/-- C5: with a definitive rejection code (neither `tesSUCCESS` nor
`terQUEUED`) the lifecycle returns that code with zero polls; with a
success or queued code it returns the validated result on the first
poll that reports `validated` (having made exactly that many polls, at
most 30), and the unresolved sentinel with 30 polls when no poll within
the 30-attempt budget reports validated. -/
theorem C5_submit_lifecycle (polls : Nat → Submitter.PollResponse) :
    (∀ er : String, er ≠ "tesSUCCESS" → er ≠ "terQUEUED" → er ≠ "" →
      Submitter.submitAndPoll (some er) polls = (er, 0)) ∧
    (∀ (er : String) (j : Nat) (m : Option String),
      er = "tesSUCCESS" ∨ er = "terQUEUED" → j < Submitter.maxAttempts →
      polls j = .result true m →
      (∀ d < j, polls d = .err ∨ ∃ mm, polls d = .result false mm) →
      Submitter.submitAndPoll (some er) polls =
        (Submitter.validatedResult m er, j + 1)) ∧
    (∀ er : String, er = "tesSUCCESS" ∨ er = "terQUEUED" →
      (∀ d < Submitter.maxAttempts,
        polls d = .err ∨ ∃ mm, polls d = .result false mm) →
      Submitter.submitAndPoll (some er) polls =
        (Submitter.unresolvedResult er, Submitter.maxAttempts)) := by
  refine ⟨?_, ?_, ?_⟩
  · intro er h1 h2 hne
    simp only [Submitter.submitAndPoll, Option.getD_some]
    rw [if_pos ⟨h1, h2⟩, Submitter.jsOrStr_of_ne_empty er "unknown" hne]
  · intro er j m her hj hv hskip
    have hcond : ¬(er ≠ "tesSUCCESS" ∧ er ≠ "terQUEUED") := by
      rcases her with h | h <;> simp [h]
    simp only [Submitter.submitAndPoll, Option.getD_some]
    rw [if_neg hcond]
    have := Submitter.pollFrom_first_validated polls er m j 0 Submitter.maxAttempts hj
      (by simpa using hv) (fun d hd => by simpa using hskip d hd)
    simpa using this
  · intro er her hskip
    have hcond : ¬(er ≠ "tesSUCCESS" ∧ er ≠ "terQUEUED") := by
      rcases her with h | h <;> simp [h]
    simp only [Submitter.submitAndPoll, Option.getD_some]
    rw [if_neg hcond]
    have := Submitter.pollFrom_exhaust polls er Submitter.maxAttempts 0
      (fun d hd => by simpa using hskip d hd)
    simpa using this

/-- C5 witness: a `tecUNFUNDED_PAYMENT` engine result is returned with
zero polls; a `terQUEUED` submit whose first poll reports validated with
`tesSUCCESS` commits after one poll; a `terQUEUED` submit whose polls
all throw is unresolved after 30 polls. -/
theorem C5_submit_lifecycle_witness :
    Submitter.submitAndPoll (some "tecUNFUNDED_PAYMENT") (fun _ => .err) =
      ("tecUNFUNDED_PAYMENT", 0) ∧
    Submitter.submitAndPoll (some "terQUEUED")
        (fun _ => .result true (some "tesSUCCESS")) =
      (Submitter.validatedResult (some "tesSUCCESS") "terQUEUED", 1) ∧
    Submitter.submitAndPoll (some "terQUEUED") (fun _ => .err) =
      (Submitter.unresolvedResult "terQUEUED", 30) :=
  ⟨(C5_submit_lifecycle (fun _ => .err)).1 "tecUNFUNDED_PAYMENT"
      (by decide) (by decide) (by decide),
   (C5_submit_lifecycle (fun _ => .result true (some "tesSUCCESS"))).2.1
      "terQUEUED" 0 (some "tesSUCCESS") (Or.inr rfl) (by decide) rfl
      (fun d hd => absurd hd (Nat.not_lt_zero d)),
   (C5_submit_lifecycle (fun _ => .err)).2.2 "terQUEUED" (Or.inr rfl)
      (fun d _ => Or.inl rfl)⟩
